import Mathlib

/-!
Verification of the ASCVD risk calculator (`ascvd.py`) against its
natural-language specification.

The single source file defines a pure function `calculate_ascvd_risk` that
validates six integer fields against inclusive ranges (raising an HTTP 400
with a fixed detail message on the first violation), computes natural-log
transforms of the clinical inputs, selects one of four coefficient branches
by `(is_black, is_male)`, and returns `round(risk * 1000) / 10` where
`risk = 1 - s010 ** exp(predict - mnxb)`.

The embedding below translates that function into Lean over `ℝ`, with the
validation step as an executable function on `ℤ` inputs.  Machine `float`
arithmetic is modelled by exact real arithmetic; `round` is Mathlib's
round-half-up on `ℝ`.
-/

/-- Model of `fastapi.HTTPException` as raised by the validation step:
a status code together with a human-readable detail string. -/
structure HTTPException where
  status_code : ℕ
  detail : String
deriving DecidableEq

/-- Input schema of the calculator (`ASCVDInput` in the source): five boolean
flags and six bounded integer fields. -/
structure ASCVDInput where
  is_male : Bool
  is_black : Bool
  smoker : Bool
  hypertensive : Bool
  diabetic : Bool
  age : ℤ
  systolic_bp : ℤ
  diastolic_bp : ℤ
  total_cholesterol : ℤ
  hdl : ℤ
  ldl : ℤ

/-- Validation step of `calculate_ascvd_risk` (source lines 36-48): the six
range checks in source order, returning the first violation's exception,
or `none` when every field is in range. -/
def validate (x : ASCVDInput) : Option HTTPException :=
  if ¬(40 ≤ x.age ∧ x.age ≤ 79) then
    some ⟨400, "Age must be between 40 and 79."⟩
  else if ¬(90 ≤ x.systolic_bp ∧ x.systolic_bp ≤ 200) then
    some ⟨400, "Systolic BP must be between 90 and 200 mmHg."⟩
  else if ¬(60 ≤ x.diastolic_bp ∧ x.diastolic_bp ≤ 130) then
    some ⟨400, "Diastolic BP must be between 60 and 130 mmHg."⟩
  else if ¬(130 ≤ x.total_cholesterol ∧ x.total_cholesterol ≤ 320) then
    some ⟨400, "Total cholesterol must be between 130 and 320 mg/dL."⟩
  else if ¬(20 ≤ x.hdl ∧ x.hdl ≤ 100) then
    some ⟨400, "HDL cholesterol must be between 20 and 100 mg/dL."⟩
  else if ¬(30 ≤ x.ldl ∧ x.ldl ≤ 300) then
    some ⟨400, "LDL cholesterol must be between 30 and 300 mg/dL."⟩
  else
    none

/-- Transform `ln_age = math.log(age)` (source line 51). -/
noncomputable def ln_age (x : ASCVDInput) : ℝ := Real.log x.age

/-- Transform `ln_total_chol = math.log(total_cholesterol)` (source line 52). -/
noncomputable def ln_total_chol (x : ASCVDInput) : ℝ := Real.log x.total_cholesterol

/-- Transform `ln_hdl = math.log(hdl)` (source line 53). -/
noncomputable def ln_hdl (x : ASCVDInput) : ℝ := Real.log x.hdl

/-- Transform `tr_ln_sbp = math.log(systolic_bp) if hypertensive else 0`
(source line 54). -/
noncomputable def tr_ln_sbp (x : ASCVDInput) : ℝ :=
  if x.hypertensive then Real.log x.systolic_bp else 0

/-- Transform `nt_ln_sbp = 0 if hypertensive else math.log(systolic_bp)`
(source line 55). -/
noncomputable def nt_ln_sbp (x : ASCVDInput) : ℝ :=
  if x.hypertensive then 0 else Real.log x.systolic_bp

/-- Interaction `age_total_chol = ln_age * ln_total_chol` (source line 56). -/
noncomputable def age_total_chol (x : ASCVDInput) : ℝ := ln_age x * ln_total_chol x

/-- Interaction `age_hdl = ln_age * ln_hdl` (source line 57). -/
noncomputable def age_hdl (x : ASCVDInput) : ℝ := ln_age x * ln_hdl x

/-- Interaction `age_tr_sbp = ln_age * tr_ln_sbp` (source line 58). -/
noncomputable def age_tr_sbp (x : ASCVDInput) : ℝ := ln_age x * tr_ln_sbp x

/-- Interaction `age_nt_sbp = ln_age * nt_ln_sbp` (source line 59). -/
noncomputable def age_nt_sbp (x : ASCVDInput) : ℝ := ln_age x * nt_ln_sbp x

/-- Interaction `age_smoke = ln_age if smoker else 0` (source line 60). -/
noncomputable def age_smoke (x : ASCVDInput) : ℝ :=
  if x.smoker then ln_age x else 0

/-- Baseline survivor constant `s010` chosen by the four-way race/sex branch
(source lines 63-107). -/
noncomputable def s010 (x : ASCVDInput) : ℝ :=
  if x.is_black && !x.is_male then 0.95334
  else if !x.is_black && !x.is_male then 0.96652
  else if x.is_black && x.is_male then 0.89536
  else 0.91436

/-- Mean coefficient-sum offset `mnxb` chosen by the four-way race/sex branch
(source lines 63-108). -/
noncomputable def mnxb (x : ASCVDInput) : ℝ :=
  if x.is_black && !x.is_male then 86.6081
  else if !x.is_black && !x.is_male then -29.1817
  else if x.is_black && x.is_male then 19.5425
  else 61.1816

/-- Linear predictor `predict` of the selected subgroup (source lines 63-120),
with the branch structure of the source reproduced verbatim. -/
noncomputable def predict (x : ASCVDInput) : ℝ :=
  if x.is_black && !x.is_male then
    17.1141 * ln_age x
      + 0.9396 * ln_total_chol x
      - 18.9196 * ln_hdl x
      + 4.4748 * age_hdl x
      + 29.2907 * tr_ln_sbp x
      - 6.4321 * age_tr_sbp x
      + 27.8197 * nt_ln_sbp x
      - 6.0873 * age_nt_sbp x
      + (if x.smoker then 0.6908 else 0)
      + (if x.diabetic then 0.8738 else 0)
  else if !x.is_black && !x.is_male then
    -29.799 * ln_age x
      + 4.884 * ln_age x ^ 2
      + 13.54 * ln_total_chol x
      - 3.114 * age_total_chol x
      - 13.578 * ln_hdl x
      + 3.149 * age_hdl x
      + 2.019 * tr_ln_sbp x
      + 1.957 * nt_ln_sbp x
      + (if x.smoker then 7.574 else 0)
      - 1.665 * age_smoke x
      + (if x.diabetic then 0.661 else 0)
  else if x.is_black && x.is_male then
    2.469 * ln_age x
      + 0.302 * ln_total_chol x
      - 0.307 * ln_hdl x
      + 1.916 * tr_ln_sbp x
      + 1.809 * nt_ln_sbp x
      + (if x.smoker then 0.549 else 0)
      + (if x.diabetic then 0.645 else 0)
  else
    12.344 * ln_age x
      + 11.853 * ln_total_chol x
      - 2.664 * age_total_chol x
      - 7.99 * ln_hdl x
      + 1.769 * age_hdl x
      + 1.797 * tr_ln_sbp x
      + 1.764 * nt_ln_sbp x
      + (if x.smoker then 7.837 else 0)
      - 1.795 * age_smoke x
      + (if x.diabetic then 0.658 else 0)

/-- Risk value `risk = 1 - s010 ** math.exp(predict - mnxb)` (source line 123),
with `**` as real exponentiation of the positive base `s010`. -/
noncomputable def risk (x : ASCVDInput) : ℝ :=
  1 - s010 x ^ Real.exp (predict x - mnxb x)

/-- Returned percentage `round(risk * 1000) / 10` (source line 124). -/
noncomputable def riskPercent (x : ASCVDInput) : ℝ :=
  (round (risk x * 1000) : ℝ) / 10

/-- The full operation `calculate_ascvd_risk`: validation followed by the
risk computation, with the raised exception modelled as an `Except` error. -/
noncomputable def calculate_ascvd_risk (x : ASCVDInput) : Except HTTPException ℝ :=
  match validate x with
  | some e => .error e
  | none => .ok (riskPercent x)

/-- Closed enumeration of the four demographic subgroups, as the spec's §9
recommends for a data-driven rendering of the source's nested conditional. -/
inductive RiskSubgroup where
  | blackFemale
  | nonBlackFemale
  | blackMale
  | nonBlackMale
deriving DecidableEq

/-- RiskSubgroup selected by the pair `(is_black, is_male)`, following the
branch order of source lines 63-106. -/
def riskSubgroupOf (isBlack isMale : Bool) : RiskSubgroup :=
  if isBlack && !isMale then .blackFemale
  else if !isBlack && !isMale then .nonBlackFemale
  else if isBlack && isMale then .blackMale
  else .nonBlackMale

/-- Modelled from the spec: a `CoefficientSet` record (spec §3) holding the
baseline survivor probability `s010`, the mean offset `meanXB`, and one
coefficient per transformed term of the linear predictor.  A coefficient of
`0` means the subgroup's predictor omits that term. -/
structure CoefficientSet where
  s010 : ℝ
  meanXB : ℝ
  lnAge : ℝ
  lnAgeSq : ℝ
  lnTotalChol : ℝ
  ageTotalChol : ℝ
  lnHdl : ℝ
  ageHdl : ℝ
  treatedSBP : ℝ
  ageTreatedSBP : ℝ
  untreatedSBP : ℝ
  ageUntreatedSBP : ℝ
  smoker : ℝ
  ageSmoke : ℝ
  diabetic : ℝ

/-- The four immutable coefficient tables, with the constants of source
lines 63-120 arranged per subgroup. -/
noncomputable def coefficients : RiskSubgroup → CoefficientSet
  | .blackFemale =>
      { s010 := 0.95334, meanXB := 86.6081
        lnAge := 17.1141, lnAgeSq := 0
        lnTotalChol := 0.9396, ageTotalChol := 0
        lnHdl := -18.9196, ageHdl := 4.4748
        treatedSBP := 29.2907, ageTreatedSBP := -6.4321
        untreatedSBP := 27.8197, ageUntreatedSBP := -6.0873
        smoker := 0.6908, ageSmoke := 0, diabetic := 0.8738 }
  | .nonBlackFemale =>
      { s010 := 0.96652, meanXB := -29.1817
        lnAge := -29.799, lnAgeSq := 4.884
        lnTotalChol := 13.54, ageTotalChol := -3.114
        lnHdl := -13.578, ageHdl := 3.149
        treatedSBP := 2.019, ageTreatedSBP := 0
        untreatedSBP := 1.957, ageUntreatedSBP := 0
        smoker := 7.574, ageSmoke := -1.665, diabetic := 0.661 }
  | .blackMale =>
      { s010 := 0.89536, meanXB := 19.5425
        lnAge := 2.469, lnAgeSq := 0
        lnTotalChol := 0.302, ageTotalChol := 0
        lnHdl := -0.307, ageHdl := 0
        treatedSBP := 1.916, ageTreatedSBP := 0
        untreatedSBP := 1.809, ageUntreatedSBP := 0
        smoker := 0.549, ageSmoke := 0, diabetic := 0.645 }
  | .nonBlackMale =>
      { s010 := 0.91436, meanXB := 61.1816
        lnAge := 12.344, lnAgeSq := 0
        lnTotalChol := 11.853, ageTotalChol := -2.664
        lnHdl := -7.99, ageHdl := 1.769
        treatedSBP := 1.797, ageTreatedSBP := 0
        untreatedSBP := 1.764, ageUntreatedSBP := 0
        smoker := 7.837, ageSmoke := -1.795, diabetic := 0.658 }

/-- Modelled from the spec: the subgroup linear combination of spec §4.1 —
every transformed term weighted by the subgroup's coefficient, with the
categorical smoker/diabetic contributions added only when the flag is set. -/
noncomputable def evalPredict (c : CoefficientSet) (x : ASCVDInput) : ℝ :=
  c.lnAge * ln_age x
    + c.lnAgeSq * ln_age x ^ 2
    + c.lnTotalChol * ln_total_chol x
    + c.ageTotalChol * age_total_chol x
    + c.lnHdl * ln_hdl x
    + c.ageHdl * age_hdl x
    + c.treatedSBP * tr_ln_sbp x
    + c.ageTreatedSBP * age_tr_sbp x
    + c.untreatedSBP * nt_ln_sbp x
    + c.ageUntreatedSBP * age_nt_sbp x
    + (if x.smoker then c.smoker else 0)
    + c.ageSmoke * age_smoke x
    + (if x.diabetic then c.diabetic else 0)

/-- Modelled from the spec: the output step of spec §4.1 applied to the
selected coefficient set — `risk = 1 - s010 ^ exp(predict - meanXB)` and
`riskPercent = round(risk * 1000) / 10`. -/
noncomputable def computeRisk_spec (x : ASCVDInput) : ℝ :=
  (round ((1 - (coefficients (riskSubgroupOf x.is_black x.is_male)).s010 ^
      Real.exp (evalPredict (coefficients (riskSubgroupOf x.is_black x.is_male)) x -
        (coefficients (riskSubgroupOf x.is_black x.is_male)).meanXB)) * 1000) : ℝ) / 10

/-- Character-list prefix test, used to reason about message contents. -/
def hasPrefixCL : List Char → List Char → Bool
  | _, [] => true
  | [], _ :: _ => false
  | a :: s, b :: t => a = b && hasPrefixCL s t

/-- Character-list substring test, used to reason about message contents. -/
def hasSubstrCL : List Char → List Char → Bool
  | [], t => t.isEmpty
  | a :: s, t => hasPrefixCL (a :: s) t || hasSubstrCL s t

/-- Valid black-female input at the upper extreme of the model: age 40,
treated systolic BP 200, total cholesterol 320, HDL 20, smoker and diabetic. -/
def c8max : ASCVDInput := ⟨false, true, true, true, true, 40, 200, 80, 320, 20, 100⟩

/-- Valid black-female input: age 40, treated systolic BP 200, total
cholesterol 130, HDL 20, non-smoker, non-diabetic. -/
def bf40 : ASCVDInput := ⟨false, true, false, true, false, 40, 200, 80, 130, 20, 100⟩

/-- The input `bf40` with age 79 instead of 40, all other fields equal. -/
def bf79 : ASCVDInput := ⟨false, true, false, true, false, 79, 200, 80, 130, 20, 100⟩

/-- The input `bf40` with the smoker flag set. -/
def bf40s : ASCVDInput := ⟨false, true, true, true, false, 40, 200, 80, 130, 20, 100⟩

/-- The input `bf79` with the smoker flag set. -/
def bf79s : ASCVDInput := ⟨false, true, true, true, false, 79, 200, 80, 130, 20, 100⟩

/-- Valid non-black-male input at age 40, non-smoker. -/
def wm40 : ASCVDInput := ⟨true, false, false, false, false, 40, 120, 80, 200, 50, 100⟩

/-- The input `wm40` with the smoker flag set. -/
def wm40s : ASCVDInput := ⟨true, false, true, false, false, 40, 120, 80, 200, 50, 100⟩

/-- The input `wm40` with age 79 instead of 40. -/
def wm79 : ASCVDInput := ⟨true, false, false, false, false, 79, 120, 80, 200, 50, 100⟩

/-- The input `wm79` with the smoker flag set. -/
def wm79s : ASCVDInput := ⟨true, false, true, false, false, 79, 120, 80, 200, 50, 100⟩

/-- Valid non-black-female input: age 40, untreated systolic BP 200, total
cholesterol 320, HDL 20, smoker, non-diabetic. -/
def wf40 : ASCVDInput := ⟨false, false, true, false, false, 40, 200, 80, 320, 20, 100⟩

/-- The input `wf40` with age 79 instead of 40, all other fields equal. -/
def wf79 : ASCVDInput := ⟨false, false, true, false, false, 79, 200, 80, 320, 20, 100⟩

/-- Invalid input whose age 39 lies one unit below the minimum. -/
def ageLow : ASCVDInput := ⟨false, false, false, false, false, 39, 120, 80, 200, 50, 100⟩

/-- Invalid input whose age 150 lies far above the maximum. -/
def ageHigh : ASCVDInput := ⟨false, false, false, false, false, 150, 120, 80, 200, 50, 100⟩

/-- Valid non-black-male sample input. -/
def sampleValid : ASCVDInput := ⟨true, false, false, false, false, 55, 120, 80, 213, 50, 100⟩

/-- The input `sampleValid` with different (still valid) diastolic BP and LDL. -/
def sampleValid2 : ASCVDInput := ⟨true, false, false, false, false, 55, 120, 130, 213, 50, 30⟩

/-- Valid black-male input at age 40. -/
def bm40 : ASCVDInput := ⟨true, true, false, false, false, 40, 120, 80, 200, 50, 100⟩

/-- The input `bm40` with age 79 instead of 40, all other fields equal. -/
def bm79 : ASCVDInput := ⟨true, true, false, false, false, 79, 120, 80, 200, 50, 100⟩

/-- Bridge between the source's nested conditional and the data-driven
coefficient tables: the predictor of the selected branch is exactly the
generic linear combination with the selected subgroup's coefficients. -/
theorem predict_eq_evalPredict (x : ASCVDInput) :
    predict x = evalPredict (coefficients (riskSubgroupOf x.is_black x.is_male)) x := by
  rcases x with ⟨im, ib, sm, hy, db, a, s, d, t, h, l⟩
  cases im <;> cases ib <;> cases sm <;> cases hy <;> cases db <;>
    simp [predict, evalPredict, coefficients, riskSubgroupOf, age_total_chol, age_hdl,
      age_tr_sbp, age_nt_sbp, age_smoke] <;> ring

/-- The selected branch's baseline constant agrees with the table. -/
theorem s010_eq_table (x : ASCVDInput) :
    s010 x = (coefficients (riskSubgroupOf x.is_black x.is_male)).s010 := by
  cases hib : x.is_black <;> cases him : x.is_male <;>
    simp [s010, coefficients, riskSubgroupOf, hib, him]

/-- The selected branch's mean offset agrees with the table. -/
theorem mnxb_eq_table (x : ASCVDInput) :
    mnxb x = (coefficients (riskSubgroupOf x.is_black x.is_male)).meanXB := by
  cases hib : x.is_black <;> cases him : x.is_male <;>
    simp [mnxb, coefficients, riskSubgroupOf, hib, him]

/-- Validation succeeds exactly when all six bounded fields are in range. -/
theorem validate_eq_none_iff (x : ASCVDInput) :
    validate x = none ↔
      (40 ≤ x.age ∧ x.age ≤ 79) ∧ (90 ≤ x.systolic_bp ∧ x.systolic_bp ≤ 200) ∧
      (60 ≤ x.diastolic_bp ∧ x.diastolic_bp ≤ 130) ∧
      (130 ≤ x.total_cholesterol ∧ x.total_cholesterol ≤ 320) ∧
      (20 ≤ x.hdl ∧ x.hdl ≤ 100) ∧ (30 ≤ x.ldl ∧ x.ldl ≤ 300) := by
  unfold validate
  split_ifs <;> simp_all

/-- When validation succeeds the operation returns the risk percentage. -/
theorem calculate_ok_of_valid {x : ASCVDInput} (h : validate x = none) :
    calculate_ascvd_risk x = .ok (riskPercent x) := by
  unfold calculate_ascvd_risk
  rw [h]

/-- When validation fails the operation propagates the exception. -/
theorem calculate_error_of_invalid {x : ASCVDInput} {e : HTTPException}
    (h : validate x = some e) : calculate_ascvd_risk x = .error e := by
  unfold calculate_ascvd_risk
  rw [h]

/-- Polynomial lower bound on the exponential: the degree-6 Taylor partial
sum is below `exp x` for nonnegative `x`. -/
theorem exp_ge_poly {x : ℝ} (hx : 0 ≤ x) :
    1 + x + x^2/2 + x^3/6 + x^4/24 + x^5/120 + x^6/720 ≤ Real.exp x := by
  have h := Real.sum_le_exp_of_nonneg hx 7
  have hs : ∑ i ∈ Finset.range 7, x ^ i / (Nat.factorial i) =
      1 + x + x^2/2 + x^3/6 + x^4/24 + x^5/120 + x^6/720 := by
    simp [Finset.sum_range_succ, Nat.factorial]
  rw [hs] at h
  exact h

/-- Polynomial upper bound on the exponential on `[0, 1]`: the degree-6
Taylor partial sum plus a remainder term dominates `exp x`. -/
theorem exp_le_poly {x : ℝ} (h0 : 0 ≤ x) (h1 : x ≤ 1) :
    Real.exp x ≤ 1 + x + x^2/2 + x^3/6 + x^4/24 + x^5/120 + x^6/720 + x^7 * 8 / 35280 := by
  have h := @Real.exp_bound' x h0 h1 7 (by norm_num)
  have hs : ∑ i ∈ Finset.range 7, x ^ i / (Nat.factorial i) =
      1 + x + x^2/2 + x^3/6 + x^4/24 + x^5/120 + x^6/720 := by
    simp [Finset.sum_range_succ, Nat.factorial]
  rw [hs] at h
  have h2 : x ^ 7 * ((7:ℕ) + 1 : ℝ) / ((Nat.factorial 7 : ℝ) * (7:ℕ)) = x^7 * 8 / 35280 := by
    norm_num [Nat.factorial]
  rw [h2] at h
  exact h

/-- Decomposition of an exponential at an argument split into a natural part
and twice a half-fraction, used to evaluate `exp` at rational points. -/
theorem exp_split (k : ℕ) (h t : ℝ) (ht : (k:ℝ) + (h + h) = t) :
    Real.exp 1 ^ k * Real.exp h ^ 2 = Real.exp t := by
  rw [← Real.exp_nat_mul, ← Real.exp_nat_mul, ← Real.exp_add, Real.exp_eq_exp]
  push_cast
  linarith

/-- Decomposition of an exponential at an argument split into a natural part
and a fractional part. -/
theorem exp_split1 (k : ℕ) (f t : ℝ) (ht : (k:ℝ) + f = t) :
    Real.exp 1 ^ k * Real.exp f = Real.exp t := by
  rw [← Real.exp_nat_mul, ← Real.exp_add, Real.exp_eq_exp]
  push_cast
  linarith

/-- Numerical lower bound on `exp 8`, used for the saturated-risk input. -/
theorem exp_eight_ge : (2980:ℝ) ≤ Real.exp 8 := by
  have h := exp_split1 8 0 8 (by norm_num)
  rw [Real.exp_zero, mul_one] at h
  rw [← h]
  calc (2980:ℝ) ≤ 2.7182818283 ^ 8 := by norm_num
    _ ≤ Real.exp 1 ^ 8 := by
        gcongr
        linarith [Real.exp_one_gt_d9]

/-- Rounding is at least `n` once the argument reaches `n - 1/2`. -/
theorem round_ge_of {x : ℝ} {n : ℤ} (h : (n:ℝ) - 1/2 ≤ x) : n ≤ round x := by
  rw [round_eq]
  exact Int.le_floor.2 (by linarith)

/-- Rounding is at most `n` while the argument stays below `n + 1/2`. -/
theorem round_le_of {x : ℝ} {n : ℤ} (h : x < (n:ℝ) + 1/2) : round x ≤ n := by
  rw [round_eq]
  have h2 : (⌊x + 1/2⌋ : ℤ) < n + 1 := Int.floor_lt.2 (by push_cast; linarith)
  omega

/-- Rounding on the reals is monotone. -/
theorem round_mono2 {x y : ℝ} (h : x ≤ y) : round x ≤ round y := by
  rw [round_eq, round_eq]
  exact Int.floor_le_floor (by linarith)


/-- Numerical upper bound on the logarithm of 20. -/
theorem log_twenty_ub : Real.log 20 < 2.99578 := by
  rw [Real.log_lt_iff_lt_exp (by norm_num)]
  have hpoly := exp_ge_poly (x := (0.49789:ℝ)) (by norm_num)
  calc (20:ℝ) < 2.7182818283 ^ 2 *
        (1 + 0.49789 + 0.49789^2/2 + 0.49789^3/6 + 0.49789^4/24 + 0.49789^5/120 + 0.49789^6/720) ^ 2 := by
        norm_num
    _ ≤ Real.exp 1 ^ 2 * Real.exp (0.49789:ℝ) ^ 2 := by
        gcongr <;> first
          | exact hpoly
          | linarith [Real.exp_one_gt_d9]
          | positivity
          | norm_num
    _ = Real.exp (2.99578:ℝ) := exp_split 2 0.49789 2.99578 (by norm_num)


/-- Numerical lower bound on the logarithm of 20. -/
theorem log_twenty_lb : (2.99568:ℝ) < Real.log 20 := by
  rw [Real.lt_log_iff_exp_lt (by norm_num)]
  have hpoly := exp_le_poly (x := (0.49784:ℝ)) (by norm_num) (by norm_num)
  calc Real.exp (2.99568:ℝ) = Real.exp 1 ^ 2 * Real.exp (0.49784:ℝ) ^ 2 :=
        (exp_split 2 0.49784 2.99568 (by norm_num)).symm
    _ ≤ 2.7182818286 ^ 2 *
        (1 + 0.49784 + 0.49784^2/2 + 0.49784^3/6 + 0.49784^4/24 + 0.49784^5/120 + 0.49784^6/720
          + 0.49784^7 * 8 / 35280) ^ 2 := by
        gcongr <;> first
          | exact hpoly
          | linarith [Real.exp_one_lt_d9]
          | positivity
          | norm_num
    _ < 20 := by norm_num


/-- Numerical upper bound on the logarithm of 40. -/
theorem log_forty_ub : Real.log 40 < 3.68893 := by
  rw [Real.log_lt_iff_lt_exp (by norm_num)]
  have hpoly := exp_ge_poly (x := (0.344465:ℝ)) (by norm_num)
  calc (40:ℝ) < 2.7182818283 ^ 3 *
        (1 + 0.344465 + 0.344465^2/2 + 0.344465^3/6 + 0.344465^4/24 + 0.344465^5/120 + 0.344465^6/720) ^ 2 := by
        norm_num
    _ ≤ Real.exp 1 ^ 3 * Real.exp (0.344465:ℝ) ^ 2 := by
        gcongr <;> first
          | exact hpoly
          | linarith [Real.exp_one_gt_d9]
          | positivity
          | norm_num
    _ = Real.exp (3.68893:ℝ) := exp_split 3 0.344465 3.68893 (by norm_num)


/-- Numerical lower bound on the logarithm of 40. -/
theorem log_forty_lb : (3.68883:ℝ) < Real.log 40 := by
  rw [Real.lt_log_iff_exp_lt (by norm_num)]
  have hpoly := exp_le_poly (x := (0.344415:ℝ)) (by norm_num) (by norm_num)
  calc Real.exp (3.68883:ℝ) = Real.exp 1 ^ 3 * Real.exp (0.344415:ℝ) ^ 2 :=
        (exp_split 3 0.344415 3.68883 (by norm_num)).symm
    _ ≤ 2.7182818286 ^ 3 *
        (1 + 0.344415 + 0.344415^2/2 + 0.344415^3/6 + 0.344415^4/24 + 0.344415^5/120 + 0.344415^6/720
          + 0.344415^7 * 8 / 35280) ^ 2 := by
        gcongr <;> first
          | exact hpoly
          | linarith [Real.exp_one_lt_d9]
          | positivity
          | norm_num
    _ < 40 := by norm_num


/-- Numerical upper bound on the logarithm of 79. -/
theorem log_seventynine_ub : Real.log 79 < 4.36950 := by
  rw [Real.log_lt_iff_lt_exp (by norm_num)]
  have hpoly := exp_ge_poly (x := (0.18475:ℝ)) (by norm_num)
  calc (79:ℝ) < 2.7182818283 ^ 4 *
        (1 + 0.18475 + 0.18475^2/2 + 0.18475^3/6 + 0.18475^4/24 + 0.18475^5/120 + 0.18475^6/720) ^ 2 := by
        norm_num
    _ ≤ Real.exp 1 ^ 4 * Real.exp (0.18475:ℝ) ^ 2 := by
        gcongr <;> first
          | exact hpoly
          | linarith [Real.exp_one_gt_d9]
          | positivity
          | norm_num
    _ = Real.exp (4.36950:ℝ) := exp_split 4 0.18475 4.36950 (by norm_num)


/-- Numerical lower bound on the logarithm of 79. -/
theorem log_seventynine_lb : (4.36940:ℝ) < Real.log 79 := by
  rw [Real.lt_log_iff_exp_lt (by norm_num)]
  have hpoly := exp_le_poly (x := (0.18470:ℝ)) (by norm_num) (by norm_num)
  calc Real.exp (4.36940:ℝ) = Real.exp 1 ^ 4 * Real.exp (0.18470:ℝ) ^ 2 :=
        (exp_split 4 0.18470 4.36940 (by norm_num)).symm
    _ ≤ 2.7182818286 ^ 4 *
        (1 + 0.18470 + 0.18470^2/2 + 0.18470^3/6 + 0.18470^4/24 + 0.18470^5/120 + 0.18470^6/720
          + 0.18470^7 * 8 / 35280) ^ 2 := by
        gcongr <;> first
          | exact hpoly
          | linarith [Real.exp_one_lt_d9]
          | positivity
          | norm_num
    _ < 79 := by norm_num


/-- Numerical upper bound on the logarithm of 130. -/
theorem log_onethirty_ub : Real.log 130 < 4.86759 := by
  rw [Real.log_lt_iff_lt_exp (by norm_num)]
  have hpoly := exp_ge_poly (x := (0.433795:ℝ)) (by norm_num)
  calc (130:ℝ) < 2.7182818283 ^ 4 *
        (1 + 0.433795 + 0.433795^2/2 + 0.433795^3/6 + 0.433795^4/24 + 0.433795^5/120 + 0.433795^6/720) ^ 2 := by
        norm_num
    _ ≤ Real.exp 1 ^ 4 * Real.exp (0.433795:ℝ) ^ 2 := by
        gcongr <;> first
          | exact hpoly
          | linarith [Real.exp_one_gt_d9]
          | positivity
          | norm_num
    _ = Real.exp (4.86759:ℝ) := exp_split 4 0.433795 4.86759 (by norm_num)


/-- Numerical lower bound on the logarithm of 130. -/
theorem log_onethirty_lb : (4.86748:ℝ) < Real.log 130 := by
  rw [Real.lt_log_iff_exp_lt (by norm_num)]
  have hpoly := exp_le_poly (x := (0.43374:ℝ)) (by norm_num) (by norm_num)
  calc Real.exp (4.86748:ℝ) = Real.exp 1 ^ 4 * Real.exp (0.43374:ℝ) ^ 2 :=
        (exp_split 4 0.43374 4.86748 (by norm_num)).symm
    _ ≤ 2.7182818286 ^ 4 *
        (1 + 0.43374 + 0.43374^2/2 + 0.43374^3/6 + 0.43374^4/24 + 0.43374^5/120 + 0.43374^6/720
          + 0.43374^7 * 8 / 35280) ^ 2 := by
        gcongr <;> first
          | exact hpoly
          | linarith [Real.exp_one_lt_d9]
          | positivity
          | norm_num
    _ < 130 := by norm_num


/-- Numerical upper bound on the logarithm of 200. -/
theorem log_twohundred_ub : Real.log 200 < 5.29837 := by
  rw [Real.log_lt_iff_lt_exp (by norm_num)]
  have hpoly := exp_ge_poly (x := (0.149185:ℝ)) (by norm_num)
  calc (200:ℝ) < 2.7182818283 ^ 5 *
        (1 + 0.149185 + 0.149185^2/2 + 0.149185^3/6 + 0.149185^4/24 + 0.149185^5/120 + 0.149185^6/720) ^ 2 := by
        norm_num
    _ ≤ Real.exp 1 ^ 5 * Real.exp (0.149185:ℝ) ^ 2 := by
        gcongr <;> first
          | exact hpoly
          | linarith [Real.exp_one_gt_d9]
          | positivity
          | norm_num
    _ = Real.exp (5.29837:ℝ) := exp_split 5 0.149185 5.29837 (by norm_num)


/-- Numerical lower bound on the logarithm of 200. -/
theorem log_twohundred_lb : (5.29826:ℝ) < Real.log 200 := by
  rw [Real.lt_log_iff_exp_lt (by norm_num)]
  have hpoly := exp_le_poly (x := (0.14913:ℝ)) (by norm_num) (by norm_num)
  calc Real.exp (5.29826:ℝ) = Real.exp 1 ^ 5 * Real.exp (0.14913:ℝ) ^ 2 :=
        (exp_split 5 0.14913 5.29826 (by norm_num)).symm
    _ ≤ 2.7182818286 ^ 5 *
        (1 + 0.14913 + 0.14913^2/2 + 0.14913^3/6 + 0.14913^4/24 + 0.14913^5/120 + 0.14913^6/720
          + 0.14913^7 * 8 / 35280) ^ 2 := by
        gcongr <;> first
          | exact hpoly
          | linarith [Real.exp_one_lt_d9]
          | positivity
          | norm_num
    _ < 200 := by norm_num


/-- Numerical upper bound on the logarithm of 320. -/
theorem log_threetwenty_ub : Real.log 320 < 5.76838 := by
  rw [Real.log_lt_iff_lt_exp (by norm_num)]
  have hpoly := exp_ge_poly (x := (0.38419:ℝ)) (by norm_num)
  calc (320:ℝ) < 2.7182818283 ^ 5 *
        (1 + 0.38419 + 0.38419^2/2 + 0.38419^3/6 + 0.38419^4/24 + 0.38419^5/120 + 0.38419^6/720) ^ 2 := by
        norm_num
    _ ≤ Real.exp 1 ^ 5 * Real.exp (0.38419:ℝ) ^ 2 := by
        gcongr <;> first
          | exact hpoly
          | linarith [Real.exp_one_gt_d9]
          | positivity
          | norm_num
    _ = Real.exp (5.76838:ℝ) := exp_split 5 0.38419 5.76838 (by norm_num)


/-- Numerical lower bound on the logarithm of 320. -/
theorem log_threetwenty_lb : (5.76827:ℝ) < Real.log 320 := by
  rw [Real.lt_log_iff_exp_lt (by norm_num)]
  have hpoly := exp_le_poly (x := (0.384135:ℝ)) (by norm_num) (by norm_num)
  calc Real.exp (5.76827:ℝ) = Real.exp 1 ^ 5 * Real.exp (0.384135:ℝ) ^ 2 :=
        (exp_split 5 0.384135 5.76827 (by norm_num)).symm
    _ ≤ 2.7182818286 ^ 5 *
        (1 + 0.384135 + 0.384135^2/2 + 0.384135^3/6 + 0.384135^4/24 + 0.384135^5/120 + 0.384135^6/720
          + 0.384135^7 * 8 / 35280) ^ 2 := by
        gcongr <;> first
          | exact hpoly
          | linarith [Real.exp_one_lt_d9]
          | positivity
          | norm_num
    _ < 320 := by norm_num


/-- Numerical upper bound on the logarithm of the black-female baseline. -/
theorem log_s1_ub : Real.log 0.95334 < -0.04777 := by
  rw [Real.log_lt_iff_lt_exp (by norm_num)]
  have hkey : Real.exp (-0.04777) * Real.exp 0.04777 = 1 := by
    rw [← Real.exp_add]; norm_num
  have hU := exp_le_poly (x := (0.04777:ℝ)) (by norm_num) (by norm_num)
  nlinarith [Real.exp_pos (-0.04777:ℝ), Real.exp_pos (0.04777:ℝ)]

/-- Numerical lower bound on the logarithm of the black-female baseline. -/
theorem log_s1_lb : (-0.04779:ℝ) < Real.log 0.95334 := by
  rw [Real.lt_log_iff_exp_lt (by norm_num)]
  have hkey : Real.exp (-0.04779) * Real.exp 0.04779 = 1 := by
    rw [← Real.exp_add]; norm_num
  have hL := exp_ge_poly (x := (0.04779:ℝ)) (by norm_num)
  nlinarith [Real.exp_pos (-0.04779:ℝ), Real.exp_pos (0.04779:ℝ)]

/-- Numerical upper bound on the logarithm of the non-black-female baseline. -/
theorem log_s2_ub : Real.log 0.96652 < -0.03404 := by
  rw [Real.log_lt_iff_lt_exp (by norm_num)]
  have hkey : Real.exp (-0.03404) * Real.exp 0.03404 = 1 := by
    rw [← Real.exp_add]; norm_num
  have hU := exp_le_poly (x := (0.03404:ℝ)) (by norm_num) (by norm_num)
  nlinarith [Real.exp_pos (-0.03404:ℝ), Real.exp_pos (0.03404:ℝ)]

/-- Numerical lower bound on the logarithm of the non-black-female baseline. -/
theorem log_s2_lb : (-0.03406:ℝ) < Real.log 0.96652 := by
  rw [Real.lt_log_iff_exp_lt (by norm_num)]
  have hkey : Real.exp (-0.03406) * Real.exp 0.03406 = 1 := by
    rw [← Real.exp_add]; norm_num
  have hL := exp_ge_poly (x := (0.03406:ℝ)) (by norm_num)
  nlinarith [Real.exp_pos (-0.03406:ℝ), Real.exp_pos (0.03406:ℝ)]

/-- Lower bound on the predictor at the extreme black-female input. -/
theorem c8max_predict_lo : (92.35:ℝ) ≤ predict c8max := by
  have he : predict c8max =
      17.1141 * Real.log 40 + 0.9396 * Real.log 320 - 18.9196 * Real.log 20
        + 4.4748 * (Real.log 40 * Real.log 20) + 29.2907 * Real.log 200
        - 6.4321 * (Real.log 40 * Real.log 200) + 0.6908 + 0.8738 := by
    simp [predict, c8max, ln_age, ln_total_chol, ln_hdl, tr_ln_sbp, nt_ln_sbp,
      age_hdl, age_tr_sbp, age_nt_sbp, age_total_chol, age_smoke]
  rw [he]
  nlinarith [log_threetwenty_lb, log_forty_lb, log_forty_ub, log_twenty_lb,
    log_twenty_ub, log_twohundred_lb, log_twohundred_ub,
    mul_nonneg (by linarith [log_forty_lb] : (0:ℝ) ≤ Real.log 40 - 3.68883)
      (by linarith [log_twenty_lb] : (0:ℝ) ≤ Real.log 20 - 2.99568),
    mul_nonneg (by linarith [log_forty_ub] : (0:ℝ) ≤ 3.68893 - Real.log 40)
      (by linarith [log_twohundred_ub] : (0:ℝ) ≤ 5.29837 - Real.log 200)]

/-- Lower bound on the predictor at the age-40 black-female input. -/
theorem bf40_predict_lo : (89.9:ℝ) ≤ predict bf40 := by
  have he : predict bf40 =
      17.1141 * Real.log 40 + 0.9396 * Real.log 130 - 18.9196 * Real.log 20
        + 4.4748 * (Real.log 40 * Real.log 20) + 29.2907 * Real.log 200
        - 6.4321 * (Real.log 40 * Real.log 200) := by
    simp [predict, bf40, ln_age, ln_total_chol, ln_hdl, tr_ln_sbp, nt_ln_sbp,
      age_hdl, age_tr_sbp, age_nt_sbp, age_total_chol, age_smoke]
  rw [he]
  nlinarith [log_onethirty_lb, log_forty_lb, log_forty_ub, log_twenty_lb,
    log_twenty_ub, log_twohundred_lb, log_twohundred_ub,
    mul_nonneg (by linarith [log_forty_lb] : (0:ℝ) ≤ Real.log 40 - 3.68883)
      (by linarith [log_twenty_lb] : (0:ℝ) ≤ Real.log 20 - 2.99568),
    mul_nonneg (by linarith [log_forty_ub] : (0:ℝ) ≤ 3.68893 - Real.log 40)
      (by linarith [log_twohundred_ub] : (0:ℝ) ≤ 5.29837 - Real.log 200)]

/-- Upper bound on the predictor at the age-79 black-female input. -/
theorem bf79_predict_hi : predict bf79 ≤ (87.6:ℝ) := by
  have he : predict bf79 =
      17.1141 * Real.log 79 + 0.9396 * Real.log 130 - 18.9196 * Real.log 20
        + 4.4748 * (Real.log 79 * Real.log 20) + 29.2907 * Real.log 200
        - 6.4321 * (Real.log 79 * Real.log 200) := by
    simp [predict, bf79, ln_age, ln_total_chol, ln_hdl, tr_ln_sbp, nt_ln_sbp,
      age_hdl, age_tr_sbp, age_nt_sbp, age_total_chol, age_smoke]
  rw [he]
  nlinarith [log_onethirty_ub, log_seventynine_lb, log_seventynine_ub, log_twenty_lb,
    log_twenty_ub, log_twohundred_lb, log_twohundred_ub,
    mul_nonneg (by linarith [log_seventynine_ub] : (0:ℝ) ≤ 4.36950 - Real.log 79)
      (by linarith [log_twenty_ub] : (0:ℝ) ≤ 2.99578 - Real.log 20),
    mul_nonneg (by linarith [log_seventynine_lb] : (0:ℝ) ≤ Real.log 79 - 4.36940)
      (by linarith [log_twohundred_lb] : (0:ℝ) ≤ Real.log 200 - 5.29826)]

/-- Lower bound on the predictor at the age-40 non-black-female input. -/
theorem wf40_predict_lo : (-25.72:ℝ) ≤ predict wf40 := by
  have he : predict wf40 =
      -29.799 * Real.log 40 + 4.884 * Real.log 40 ^ 2 + 13.54 * Real.log 320
        - 3.114 * (Real.log 40 * Real.log 320) - 13.578 * Real.log 20
        + 3.149 * (Real.log 40 * Real.log 20) + 1.957 * Real.log 200
        + 7.574 - 1.665 * Real.log 40 := by
    simp [predict, wf40, ln_age, ln_total_chol, ln_hdl, tr_ln_sbp, nt_ln_sbp,
      age_hdl, age_tr_sbp, age_nt_sbp, age_total_chol, age_smoke]
  rw [he]
  nlinarith [log_threetwenty_lb, log_threetwenty_ub, log_forty_lb, log_forty_ub,
    log_twenty_lb, log_twenty_ub, log_twohundred_lb, log_twohundred_ub,
    mul_nonneg (by linarith [log_forty_lb] : (0:ℝ) ≤ Real.log 40 - 3.68883)
      (by linarith [log_forty_lb] : (0:ℝ) ≤ Real.log 40 + 3.68883),
    mul_nonneg (by linarith [log_forty_ub] : (0:ℝ) ≤ 3.68893 - Real.log 40)
      (by linarith [log_threetwenty_ub] : (0:ℝ) ≤ 5.76838 - Real.log 320),
    mul_nonneg (by linarith [log_forty_lb] : (0:ℝ) ≤ Real.log 40 - 3.68883)
      (by linarith [log_twenty_lb] : (0:ℝ) ≤ Real.log 20 - 2.99568)]

/-- Upper bound on the predictor at the age-79 non-black-female input. -/
theorem wf79_predict_hi : predict wf79 ≤ (-26.11:ℝ) := by
  have he : predict wf79 =
      -29.799 * Real.log 79 + 4.884 * Real.log 79 ^ 2 + 13.54 * Real.log 320
        - 3.114 * (Real.log 79 * Real.log 320) - 13.578 * Real.log 20
        + 3.149 * (Real.log 79 * Real.log 20) + 1.957 * Real.log 200
        + 7.574 - 1.665 * Real.log 79 := by
    simp [predict, wf79, ln_age, ln_total_chol, ln_hdl, tr_ln_sbp, nt_ln_sbp,
      age_hdl, age_tr_sbp, age_nt_sbp, age_total_chol, age_smoke]
  rw [he]
  nlinarith [log_threetwenty_lb, log_threetwenty_ub, log_seventynine_lb,
    log_seventynine_ub, log_twenty_lb, log_twenty_ub, log_twohundred_lb,
    log_twohundred_ub,
    mul_nonneg (by linarith [log_seventynine_ub] : (0:ℝ) ≤ 4.36950 - Real.log 79)
      (by linarith [log_seventynine_lb] : (0:ℝ) ≤ 4.36950 + Real.log 79),
    mul_nonneg (by linarith [log_seventynine_lb] : (0:ℝ) ≤ Real.log 79 - 4.36940)
      (by linarith [log_threetwenty_lb] : (0:ℝ) ≤ Real.log 320 - 5.76827),
    mul_nonneg (by linarith [log_seventynine_ub] : (0:ℝ) ≤ 4.36950 - Real.log 79)
      (by linarith [log_twenty_ub] : (0:ℝ) ≤ 2.99578 - Real.log 20)]

/-- Square decomposition of the exponential, used to evaluate it at rational
points below 1. -/
theorem exp_sq_half (h t : ℝ) (ht : h + h = t) : Real.exp h ^ 2 = Real.exp t := by
  rw [← Real.exp_nat_mul, Real.exp_eq_exp]
  push_cast
  linarith

/-- Exponentiation of a positive base below 1 by a large exponent is small:
generic step from a log upper bound and an exponent lower bound. -/
theorem sE_le_of {s E c t : ℝ} (hs : 0 < s) (hlog : Real.log s ≤ -c) (hc : 0 < c)
    (hE : t ≤ E) (ht : 0 < t) : s ^ E ≤ Real.exp (-(c*t)) := by
  rw [Real.rpow_def_of_pos hs]
  apply Real.exp_le_exp.2
  nlinarith [mul_nonneg (by linarith : (0:ℝ) ≤ -c - Real.log s) (by linarith : (0:ℝ) ≤ E - t)]

/-- Exponentiation of a positive base by a bounded exponent stays above the
corresponding exponential bound: generic step from a log lower bound and an
exponent upper bound. -/
theorem sE_ge_of {s E c u : ℝ} (hs : 0 < s) (hlog : -c ≤ Real.log s) (hc : 0 < c)
    (hE : E ≤ u) (hE0 : 0 < E) : Real.exp (-(c*u)) ≤ s ^ E := by
  rw [Real.rpow_def_of_pos hs]
  apply Real.exp_le_exp.2
  nlinarith [mul_nonneg (by linarith : (0:ℝ) ≤ Real.log s + c) (by linarith : (0:ℝ) ≤ E)]

/-- Lower bound on the rounded percentage from a lower bound on the raw risk. -/
theorem riskPercent_ge_of {x : ASCVDInput} {n : ℤ} (h : (n:ℝ) - 1/2 ≤ risk x * 1000) :
    (n:ℝ)/10 ≤ riskPercent x := by
  unfold riskPercent
  have h1 := round_ge_of h
  have h2 : ((n:ℤ):ℝ) ≤ (round (risk x * 1000) : ℝ) := by exact_mod_cast h1
  linarith

/-- Upper bound on the rounded percentage from an upper bound on the raw risk. -/
theorem riskPercent_le_of {x : ASCVDInput} {n : ℤ} (h : risk x * 1000 < (n:ℝ) + 1/2) :
    riskPercent x ≤ (n:ℝ)/10 := by
  unfold riskPercent
  have h1 := round_le_of h
  have h2 : (round (risk x * 1000) : ℝ) ≤ ((n:ℤ):ℝ) := by exact_mod_cast h1
  linarith

/-- The extreme black-female input rounds to exactly 100 percent. -/
theorem c8max_riskPercent : riskPercent c8max = 100 := by
  have hs : s010 c8max = 0.95334 := by simp [s010, c8max]
  have hm : mnxb c8max = 86.6081 := by simp [mnxb, c8max]
  have hspos : (0:ℝ) < s010 c8max := by rw [hs]; norm_num
  have hE : (200:ℝ) ≤ Real.exp (predict c8max - mnxb c8max) := by
    rw [hm]
    have h1 : (5.7419:ℝ) ≤ predict c8max - 86.6081 := by linarith [c8max_predict_lo]
    calc (200:ℝ) ≤ 2.7182818283^5 * (0.7419 + 1) := by norm_num
      _ ≤ Real.exp 1 ^ 5 * Real.exp 0.7419 := by
          gcongr <;> first
            | linarith [Real.exp_one_gt_d9]
            | exact Real.add_one_le_exp (0.7419:ℝ)
            | positivity
            | norm_num
      _ = Real.exp (5.7419:ℝ) := exp_split1 5 0.7419 5.7419 (by norm_num)
      _ ≤ Real.exp (predict c8max - 86.6081) := Real.exp_le_exp.2 h1
  have hlog : Real.log (s010 c8max) ≤ -(0.04777:ℝ) := by rw [hs]; exact log_s1_ub.le
  have hsE : s010 c8max ^ Real.exp (predict c8max - mnxb c8max) ≤
      Real.exp (-(0.04777*200:ℝ)) :=
    sE_le_of hspos hlog (by norm_num) hE (by norm_num)
  have hsmall : Real.exp (-(0.04777*200:ℝ)) ≤ 0.0005 := by
    have hkey : Real.exp (-(0.04777*200:ℝ)) * Real.exp (0.04777*200:ℝ) = 1 := by
      rw [← Real.exp_add]; norm_num
    have h8 : Real.exp (8:ℝ) ≤ Real.exp (0.04777*200:ℝ) := Real.exp_le_exp.2 (by norm_num)
    nlinarith [exp_eight_ge, Real.exp_pos (-(0.04777*200:ℝ)), Real.exp_pos (0.04777*200:ℝ)]
  have hpos : 0 < s010 c8max ^ Real.exp (predict c8max - mnxb c8max) :=
    Real.rpow_pos_of_pos hspos _
  have hr1 : (0.9995:ℝ) ≤ risk c8max := by unfold risk; nlinarith
  have hr2 : risk c8max < 1 := by unfold risk; nlinarith
  have hge : (1000:ℤ) ≤ round (risk c8max * 1000) := round_ge_of (by push_cast; nlinarith)
  have hle : round (risk c8max * 1000) ≤ 1000 := round_le_of (by push_cast; nlinarith)
  have hround : round (risk c8max * 1000) = 1000 := le_antisymm hle hge
  unfold riskPercent
  rw [hround]
  norm_num

/-- The age-40 black-female input yields at least 50 percent. -/
theorem bf40_riskPercent_ge : (50:ℝ) ≤ riskPercent bf40 := by
  have hs : s010 bf40 = 0.95334 := by simp [s010, bf40]
  have hm : mnxb bf40 = 86.6081 := by simp [mnxb, bf40]
  have hspos : (0:ℝ) < s010 bf40 := by rw [hs]; norm_num
  have hE : (25.94:ℝ) ≤ Real.exp (predict bf40 - mnxb bf40) := by
    rw [hm]
    have h1 : (3.2919:ℝ) ≤ predict bf40 - 86.6081 := by linarith [bf40_predict_lo]
    calc (25.94:ℝ) ≤ 2.7182818283^3 * (0.2919 + 1) := by norm_num
      _ ≤ Real.exp 1 ^ 3 * Real.exp 0.2919 := by
          gcongr <;> first
            | linarith [Real.exp_one_gt_d9]
            | exact Real.add_one_le_exp (0.2919:ℝ)
            | positivity
            | norm_num
      _ = Real.exp (3.2919:ℝ) := exp_split1 3 0.2919 3.2919 (by norm_num)
      _ ≤ Real.exp (predict bf40 - 86.6081) := Real.exp_le_exp.2 h1
  have hlog : Real.log (s010 bf40) ≤ -(0.04777:ℝ) := by rw [hs]; exact log_s1_ub.le
  have hsE : s010 bf40 ^ Real.exp (predict bf40 - mnxb bf40) ≤
      Real.exp (-(0.04777*25.94:ℝ)) :=
    sE_le_of hspos hlog (by norm_num) hE (by norm_num)
  have hsmall : Real.exp (-(0.04777*25.94:ℝ)) ≤ 0.333 := by
    have hkey : Real.exp (-(0.04777*25.94:ℝ)) * Real.exp (0.04777*25.94:ℝ) = 1 := by
      rw [← Real.exp_add]; norm_num
    have hq := exp_ge_poly (x := (0.04777*25.94:ℝ)) (by norm_num)
    nlinarith [Real.exp_pos (-(0.04777*25.94:ℝ)), Real.exp_pos (0.04777*25.94:ℝ)]
  have hr1 : (0.667:ℝ) ≤ risk bf40 := by unfold risk; nlinarith
  have h50 : ((500:ℤ):ℝ)/10 ≤ riskPercent bf40 :=
    riskPercent_ge_of (by push_cast; nlinarith)
  norm_num at h50
  exact h50

/-- The age-79 black-female input yields at most 35 percent. -/
theorem bf79_riskPercent_le : riskPercent bf79 ≤ (35:ℝ) := by
  have hs : s010 bf79 = 0.95334 := by simp [s010, bf79]
  have hm : mnxb bf79 = 86.6081 := by simp [mnxb, bf79]
  have hspos : (0:ℝ) < s010 bf79 := by rw [hs]; norm_num
  have hEu : Real.exp (predict bf79 - mnxb bf79) ≤ 2.697 := by
    rw [hm]
    have h1 : predict bf79 - 86.6081 ≤ (0.9919:ℝ) := by linarith [bf79_predict_hi]
    have hpoly := exp_le_poly (x := (0.49595:ℝ)) (by norm_num) (by norm_num)
    calc Real.exp (predict bf79 - 86.6081) ≤ Real.exp (0.9919:ℝ) := Real.exp_le_exp.2 h1
      _ = Real.exp (0.49595:ℝ) ^ 2 := (exp_sq_half 0.49595 0.9919 (by norm_num)).symm
      _ ≤ (1 + 0.49595 + 0.49595^2/2 + 0.49595^3/6 + 0.49595^4/24 + 0.49595^5/120
            + 0.49595^6/720 + 0.49595^7 * 8 / 35280) ^ 2 := by
          gcongr <;> first
            | exact hpoly
            | positivity
            | norm_num
      _ ≤ 2.697 := by norm_num
  have hlog : -(0.04779:ℝ) ≤ Real.log (s010 bf79) := by rw [hs]; exact log_s1_lb.le
  have hsE : Real.exp (-(0.04779*2.697:ℝ)) ≤
      s010 bf79 ^ Real.exp (predict bf79 - mnxb bf79) :=
    sE_ge_of hspos hlog (by norm_num) hEu (Real.exp_pos _)
  have hbig : (0.871:ℝ) ≤ Real.exp (-(0.04779*2.697:ℝ)) := by
    have h1 := Real.add_one_le_exp (-(0.04779*2.697):ℝ)
    linarith
  have hr1 : risk bf79 ≤ (0.129:ℝ) := by unfold risk; nlinarith
  have h35 : riskPercent bf79 ≤ ((350:ℤ):ℝ)/10 :=
    riskPercent_le_of (by push_cast; nlinarith)
  norm_num at h35
  exact h35

/-- The age-40 non-black-female input yields at least 60 percent. -/
theorem wf40_riskPercent_ge : (60:ℝ) ≤ riskPercent wf40 := by
  have hs : s010 wf40 = 0.96652 := by simp [s010, wf40]
  have hm : mnxb wf40 = -29.1817 := by simp [mnxb, wf40]
  have hspos : (0:ℝ) < s010 wf40 := by rw [hs]; norm_num
  have hE : (31.49:ℝ) ≤ Real.exp (predict wf40 - mnxb wf40) := by
    rw [hm]
    have h1 : (3.4617:ℝ) ≤ predict wf40 - -29.1817 := by linarith [wf40_predict_lo]
    have hq := exp_ge_poly (x := (0.4617:ℝ)) (by norm_num)
    calc (31.49:ℝ) ≤ 2.7182818283^3 *
          (1 + 0.4617 + 0.4617^2/2 + 0.4617^3/6 + 0.4617^4/24 + 0.4617^5/120
            + 0.4617^6/720) := by norm_num
      _ ≤ Real.exp 1 ^ 3 * Real.exp 0.4617 := by
          gcongr <;> first
            | exact hq
            | linarith [Real.exp_one_gt_d9]
            | positivity
            | norm_num
      _ = Real.exp (3.4617:ℝ) := exp_split1 3 0.4617 3.4617 (by norm_num)
      _ ≤ Real.exp (predict wf40 - -29.1817) := Real.exp_le_exp.2 h1
  have hlog : Real.log (s010 wf40) ≤ -(0.03404:ℝ) := by rw [hs]; exact log_s2_ub.le
  have hsE : s010 wf40 ^ Real.exp (predict wf40 - mnxb wf40) ≤
      Real.exp (-(0.03404*31.49:ℝ)) :=
    sE_le_of hspos hlog (by norm_num) hE (by norm_num)
  have hsmall : Real.exp (-(0.03404*31.49:ℝ)) ≤ 0.37787 := by
    have hkey : Real.exp (-(0.03404*31.49:ℝ)) * Real.exp (0.03404*31.49:ℝ) = 1 := by
      rw [← Real.exp_add]; norm_num
    have hq := exp_ge_poly (x := (0.03404*31.49:ℝ)) (by norm_num)
    nlinarith [Real.exp_pos (-(0.03404*31.49:ℝ)), Real.exp_pos (0.03404*31.49:ℝ)]
  have hr1 : (0.62213:ℝ) ≤ risk wf40 := by unfold risk; nlinarith
  have h60 : ((600:ℤ):ℝ)/10 ≤ riskPercent wf40 :=
    riskPercent_ge_of (by push_cast; nlinarith)
  norm_num at h60
  exact h60

/-- The age-79 non-black-female input yields at most 59 percent. -/
theorem wf79_riskPercent_le : riskPercent wf79 ≤ (59:ℝ) := by
  have hs : s010 wf79 = 0.96652 := by simp [s010, wf79]
  have hm : mnxb wf79 = -29.1817 := by simp [mnxb, wf79]
  have hspos : (0:ℝ) < s010 wf79 := by rw [hs]; norm_num
  have hEu : Real.exp (predict wf79 - mnxb wf79) ≤ 21.579 := by
    rw [hm]
    have h1 : predict wf79 - -29.1817 ≤ (3.0717:ℝ) := by linarith [wf79_predict_hi]
    have hpoly := exp_le_poly (x := (0.03585:ℝ)) (by norm_num) (by norm_num)
    calc Real.exp (predict wf79 - -29.1817) ≤ Real.exp (3.0717:ℝ) := Real.exp_le_exp.2 h1
      _ = Real.exp 1 ^ 3 * Real.exp (0.03585:ℝ) ^ 2 :=
          (exp_split 3 0.03585 3.0717 (by norm_num)).symm
      _ ≤ 2.7182818286^3 *
          (1 + 0.03585 + 0.03585^2/2 + 0.03585^3/6 + 0.03585^4/24 + 0.03585^5/120
            + 0.03585^6/720 + 0.03585^7 * 8 / 35280) ^ 2 := by
          gcongr <;> first
            | exact hpoly
            | linarith [Real.exp_one_lt_d9]
            | positivity
            | norm_num
      _ ≤ 21.579 := by norm_num
  have hlog : -(0.03406:ℝ) ≤ Real.log (s010 wf79) := by rw [hs]; exact log_s2_lb.le
  have hsE : Real.exp (-(0.03406*21.579:ℝ)) ≤
      s010 wf79 ^ Real.exp (predict wf79 - mnxb wf79) :=
    sE_ge_of hspos hlog (by norm_num) hEu (Real.exp_pos _)
  have hbig : (0.4795:ℝ) ≤ Real.exp (-(0.03406*21.579:ℝ)) := by
    have hkey : Real.exp (-(0.03406*21.579:ℝ)) * Real.exp (0.03406*21.579:ℝ) = 1 := by
      rw [← Real.exp_add]; norm_num
    have hu := exp_le_poly (x := (0.03406*21.579:ℝ)) (by norm_num) (by norm_num)
    nlinarith [Real.exp_pos (-(0.03406*21.579:ℝ)), Real.exp_pos (0.03406*21.579:ℝ)]
  have hr1 : risk wf79 ≤ (0.5205:ℝ) := by unfold risk; nlinarith
  have h59 : riskPercent wf79 ≤ ((590:ℤ):ℝ)/10 :=
    riskPercent_le_of (by push_cast; nlinarith)
  norm_num at h59
  exact h59

/-- Monotonicity of the rounded percentage in the predictor, for a fixed
subgroup whose baseline lies in `(0, 1]`. -/
theorem riskPercent_mono_predict {x y : ASCVDInput} (hs : s010 x = s010 y)
    (hm : mnxb x = mnxb y) (h0 : 0 < s010 x) (h1 : s010 x ≤ 1)
    (hp : predict x ≤ predict y) : riskPercent x ≤ riskPercent y := by
  have hE : Real.exp (predict x - mnxb x) ≤ Real.exp (predict y - mnxb y) := by
    rw [← hm]
    exact Real.exp_le_exp.2 (by linarith)
  have hr : s010 y ^ Real.exp (predict y - mnxb y) ≤
      s010 x ^ Real.exp (predict x - mnxb x) := by
    rw [← hs]
    exact Real.rpow_le_rpow_of_exponent_ge h0 h1 hE
  have hrisk : risk x ≤ risk y := by
    unfold risk
    rw [← hs]
    rw [← hs] at hr
    linarith
  unfold riskPercent
  have hr2 := round_mono2 (by linarith : risk x * 1000 ≤ risk y * 1000)
  have hr3 : (round (risk x * 1000) : ℝ) ≤ (round (risk y * 1000) : ℝ) := by
    exact_mod_cast hr2
  linarith

/-- For a male input, the predictor never decreases as age increases, all
other fields held fixed and in range. -/
theorem predict_male_mono {x y : ASCVDInput} (hxm : x.is_male = true)
    (hym : y.is_male = true) (hb : y.is_black = x.is_black)
    (hsm : y.smoker = x.smoker) (hhy : y.hypertensive = x.hypertensive)
    (hdb : y.diabetic = x.diabetic) (hsbp : y.systolic_bp = x.systolic_bp)
    (htc : y.total_cholesterol = x.total_cholesterol) (hhdl : y.hdl = x.hdl)
    (hage1 : 40 ≤ x.age) (hage2 : x.age ≤ y.age)
    (htc1 : 130 ≤ x.total_cholesterol) (htc2 : x.total_cholesterol ≤ 320)
    (hhdl1 : 20 ≤ x.hdl) : predict x ≤ predict y := by
  have hxa : (0:ℝ) < (x.age:ℝ) := by exact_mod_cast (by omega : (0:ℤ) < x.age)
  have hA : Real.log x.age ≤ Real.log y.age :=
    Real.log_le_log hxa (by exact_mod_cast hage2)
  have hT : Real.log x.total_cholesterol ≤ Real.log 320 :=
    Real.log_le_log (by exact_mod_cast (by omega : (0:ℤ) < x.total_cholesterol))
      (by exact_mod_cast htc2)
  have hH : Real.log 20 ≤ Real.log x.hdl :=
    Real.log_le_log (by norm_num) (by exact_mod_cast hhdl1)
  have hTu : Real.log x.total_cholesterol < 5.76838 := lt_of_le_of_lt hT log_threetwenty_ub
  have hHl : (2.99568:ℝ) < Real.log x.hdl := lt_of_lt_of_le log_twenty_lb hH
  cases hib : x.is_black with
  | true =>
      simp only [predict, hxm, hym, hb, hsm, hhy, hdb, hsbp, htc, hhdl, hib,
        ln_age, ln_total_chol, ln_hdl, tr_ln_sbp, nt_ln_sbp, age_total_chol,
        age_hdl, age_tr_sbp, age_nt_sbp, age_smoke, Bool.not_true, Bool.and_false,
        Bool.false_and, Bool.and_true, Bool.true_and, Bool.not_false]
      norm_num
      nlinarith [hA]
  | false =>
      simp only [predict, hxm, hym, hb, hsm, hhy, hdb, hsbp, htc, hhdl, hib,
        ln_age, ln_total_chol, ln_hdl, tr_ln_sbp, nt_ln_sbp, age_total_chol,
        age_hdl, age_tr_sbp, age_nt_sbp, age_smoke, Bool.not_true, Bool.and_false,
        Bool.false_and, Bool.and_true, Bool.true_and, Bool.not_false]
      norm_num
      cases hsm2 : x.smoker with
      | true =>
          norm_num
          nlinarith [hA, hTu, hHl,
            mul_nonneg (by linarith : (0:ℝ) ≤ Real.log y.age - Real.log x.age)
              (by linarith : (0:ℝ) ≤ 5.76838 - Real.log x.total_cholesterol),
            mul_nonneg (by linarith : (0:ℝ) ≤ Real.log y.age - Real.log x.age)
              (by linarith : (0:ℝ) ≤ Real.log x.hdl - 2.99568)]
      | false =>
          norm_num
          nlinarith [hA, hTu, hHl,
            mul_nonneg (by linarith : (0:ℝ) ≤ Real.log y.age - Real.log x.age)
              (by linarith : (0:ℝ) ≤ 5.76838 - Real.log x.total_cholesterol),
            mul_nonneg (by linarith : (0:ℝ) ≤ Real.log y.age - Real.log x.age)
              (by linarith : (0:ℝ) ≤ Real.log x.hdl - 2.99568)]

/-- Every subgroup baseline is positive. -/
theorem s010_pos (x : ASCVDInput) : 0 < s010 x := by
  unfold s010
  split_ifs <;> norm_num

/-- Every subgroup baseline is below one. -/
theorem s010_lt_one (x : ASCVDInput) : s010 x < 1 := by
  unfold s010
  split_ifs <;> norm_num

/-- The baseline depends only on the two demographic flags. -/
theorem s010_congr {x y : ASCVDInput} (h1 : y.is_male = x.is_male)
    (h2 : y.is_black = x.is_black) : s010 x = s010 y := by
  unfold s010
  rw [h1, h2]

/-- The mean offset depends only on the two demographic flags. -/
theorem mnxb_congr {x y : ASCVDInput} (h1 : y.is_male = x.is_male)
    (h2 : y.is_black = x.is_black) : mnxb x = mnxb y := by
  unfold mnxb
  rw [h1, h2]

/-- The risk percentage does not read the diastolic BP or LDL fields: it is
determined by the other nine fields. -/
theorem riskPercent_congr {x y : ASCVDInput} (h1 : y.is_male = x.is_male)
    (h2 : y.is_black = x.is_black) (h3 : y.smoker = x.smoker)
    (h4 : y.hypertensive = x.hypertensive) (h5 : y.diabetic = x.diabetic)
    (h6 : y.age = x.age) (h7 : y.systolic_bp = x.systolic_bp)
    (h8 : y.total_cholesterol = x.total_cholesterol) (h9 : y.hdl = x.hdl) :
    riskPercent x = riskPercent y := by
  simp only [riskPercent, risk, s010, mnxb, predict, ln_age, ln_total_chol, ln_hdl,
    tr_ln_sbp, nt_ln_sbp, age_total_chol, age_hdl, age_tr_sbp, age_nt_sbp, age_smoke]
  rw [h1, h2, h3, h4, h5, h6, h7, h8, h9]

/-- The operation returns a value exactly when validation succeeds. -/
theorem calculate_ok_iff (x : ASCVDInput) :
    (∃ r, calculate_ascvd_risk x = .ok r) ↔ validate x = none := by
  constructor
  · rintro ⟨r, hr⟩
    unfold calculate_ascvd_risk at hr
    cases hv : validate x with
    | none => rfl
    | some e => rw [hv] at hr; exact absurd hr (by simp)
  · intro hv
    exact ⟨riskPercent x, calculate_ok_of_valid hv⟩

/-- C1: for every input whose six bounded fields lie in their inclusive
ranges, the operation returns the spec's data-driven result: the value
`round(risk * 1000) / 10` with `risk = 1 - s010 ^ exp(predict - meanXB)`,
where `predict` is the selected subgroup's linear combination over the
transformed terms (with the smoker/diabetic constants added only when the
flags are set) and `(s010, meanXB)` are the selected subgroup's constants. -/
theorem C1_valid_input_formula (x : ASCVDInput)
    (h1 : 40 ≤ x.age) (h2 : x.age ≤ 79)
    (h3 : 90 ≤ x.systolic_bp) (h4 : x.systolic_bp ≤ 200)
    (h5 : 60 ≤ x.diastolic_bp) (h6 : x.diastolic_bp ≤ 130)
    (h7 : 130 ≤ x.total_cholesterol) (h8 : x.total_cholesterol ≤ 320)
    (h9 : 20 ≤ x.hdl) (h10 : x.hdl ≤ 100)
    (h11 : 30 ≤ x.ldl) (h12 : x.ldl ≤ 300) :
    calculate_ascvd_risk x = .ok (computeRisk_spec x) := by
  have hv : validate x = none :=
    (validate_eq_none_iff x).2
      ⟨⟨h1, h2⟩, ⟨h3, h4⟩, ⟨h5, h6⟩, ⟨h7, h8⟩, ⟨h9, h10⟩, ⟨h11, h12⟩⟩
  rw [calculate_ok_of_valid hv]
  have he : riskPercent x = computeRisk_spec x := by
    unfold riskPercent risk computeRisk_spec
    rw [s010_eq_table x, mnxb_eq_table x, predict_eq_evalPredict x]
  rw [he]

/-- Witness for C1 at a concrete valid input. -/
theorem C1_witness :
    calculate_ascvd_risk sampleValid = .ok (computeRisk_spec sampleValid) :=
  C1_valid_input_formula sampleValid (by decide) (by decide) (by decide) (by decide)
    (by decide) (by decide) (by decide) (by decide) (by decide) (by decide)
    (by decide) (by decide)

/-- C2: the coefficient set is selected solely by `(isBlack, isMale)`,
exactly one of the four sets is used per call, and the four `(s010, meanXB)`
pairs carry the documented constants. -/
theorem C2_subgroup_constants (x : ASCVDInput) :
    ((x.is_black, x.is_male) = (true, false) → s010 x = 0.95334 ∧ mnxb x = 86.6081) ∧
    ((x.is_black, x.is_male) = (false, false) → s010 x = 0.96652 ∧ mnxb x = -29.1817) ∧
    ((x.is_black, x.is_male) = (true, true) → s010 x = 0.89536 ∧ mnxb x = 19.5425) ∧
    ((x.is_black, x.is_male) = (false, true) → s010 x = 0.91436 ∧ mnxb x = 61.1816) ∧
    s010 x = (coefficients (riskSubgroupOf x.is_black x.is_male)).s010 ∧
    mnxb x = (coefficients (riskSubgroupOf x.is_black x.is_male)).meanXB ∧
    predict x = evalPredict (coefficients (riskSubgroupOf x.is_black x.is_male)) x := by
  refine ⟨?_, ?_, ?_, ?_, s010_eq_table x, mnxb_eq_table x, predict_eq_evalPredict x⟩ <;>
    · intro h
      simp only [Prod.mk.injEq] at h
      simp [s010, mnxb, h.1, h.2]

/-- Witness for C2 at a concrete non-black male input. -/
theorem C2_witness : s010 sampleValid = 0.91436 ∧ mnxb sampleValid = 61.1816 :=
  (C2_subgroup_constants sampleValid).2.2.2.1 (by decide)

/-- C3 counterexample: the claim fails in both directions.  The black-female
subgroup is female yet its predictor has no squared lnAge term and no
ageSmoke interaction: its table coefficients for those terms are zero and,
concretely, the smoking contribution to its predictor is the same constant
0.6908 at age 40 and at age 79.  Conversely the non-black male predictor
does include an ageSmoke interaction (coefficient -1.795): its smoking
contribution strictly decreases between age 40 and age 79. -/
theorem C3_counterexample :
    (coefficients (riskSubgroupOf true false)).lnAgeSq = 0 ∧
    (coefficients (riskSubgroupOf true false)).ageSmoke = 0 ∧
    predict bf40s - predict bf40 = 0.6908 ∧
    predict bf79s - predict bf79 = 0.6908 ∧
    (coefficients (riskSubgroupOf false true)).ageSmoke = -1.795 ∧
    predict wm79s - predict wm79 < predict wm40s - predict wm40 := by
  have hlog : Real.log 40 < Real.log 79 := Real.log_lt_log (by norm_num) (by norm_num)
  refine ⟨by simp [coefficients, riskSubgroupOf], by simp [coefficients, riskSubgroupOf],
    ?_, ?_, by simp [coefficients, riskSubgroupOf], ?_⟩ <;>
    · simp [predict, bf40s, bf40, bf79s, bf79, wm40s, wm40, wm79s, wm79, ln_age,
        ln_total_chol, ln_hdl, tr_ln_sbp, nt_ln_sbp, age_total_chol, age_hdl,
        age_tr_sbp, age_nt_sbp, age_smoke]
      all_goals linarith

/-- C3 (amended): the squared lnAge term appears only in the non-black
female subgroup (coefficient 4.884); the ageSmoke interaction appears in the
non-black female subgroup (-1.665) and in the non-black male subgroup
(-1.795), while both black subgroups omit both terms; and the predictor of
every input is the generic linear combination with the selected subgroup's
coefficients. -/
theorem C3_female_term_asymmetry :
    (coefficients (riskSubgroupOf false false)).lnAgeSq = 4.884 ∧
    (coefficients (riskSubgroupOf false false)).ageSmoke = -1.665 ∧
    (coefficients (riskSubgroupOf false true)).ageSmoke = -1.795 ∧
    (∀ b, (coefficients (riskSubgroupOf b true)).lnAgeSq = 0) ∧
    (coefficients (riskSubgroupOf true false)).lnAgeSq = 0 ∧
    (coefficients (riskSubgroupOf true false)).ageSmoke = 0 ∧
    (coefficients (riskSubgroupOf true true)).ageSmoke = 0 ∧
    ∀ z : ASCVDInput,
      predict z = evalPredict (coefficients (riskSubgroupOf z.is_black z.is_male)) z := by
  refine ⟨by simp [coefficients, riskSubgroupOf], by simp [coefficients, riskSubgroupOf],
    by simp [coefficients, riskSubgroupOf], ?_,
    by simp [coefficients, riskSubgroupOf], by simp [coefficients, riskSubgroupOf],
    by simp [coefficients, riskSubgroupOf], predict_eq_evalPredict⟩
  intro b
  cases b <;> simp [coefficients, riskSubgroupOf]

/-- C4: the operation fails with a validation error exactly when at least
one field is out of its inclusive range, boundary values succeed, and when
several fields violate, the surfaced error is for the first violating field
in source order (age, systolic, diastolic, cholesterol, HDL, LDL). -/
theorem C4_validation_order (x : ASCVDInput) :
    ((∃ r, calculate_ascvd_risk x = .ok r) ↔
      (40 ≤ x.age ∧ x.age ≤ 79) ∧ (90 ≤ x.systolic_bp ∧ x.systolic_bp ≤ 200) ∧
      (60 ≤ x.diastolic_bp ∧ x.diastolic_bp ≤ 130) ∧
      (130 ≤ x.total_cholesterol ∧ x.total_cholesterol ≤ 320) ∧
      (20 ≤ x.hdl ∧ x.hdl ≤ 100) ∧ (30 ≤ x.ldl ∧ x.ldl ≤ 300)) ∧
    (¬(40 ≤ x.age ∧ x.age ≤ 79) →
      calculate_ascvd_risk x = .error ⟨400, "Age must be between 40 and 79."⟩) ∧
    ((40 ≤ x.age ∧ x.age ≤ 79) → ¬(90 ≤ x.systolic_bp ∧ x.systolic_bp ≤ 200) →
      calculate_ascvd_risk x = .error ⟨400, "Systolic BP must be between 90 and 200 mmHg."⟩) ∧
    ((40 ≤ x.age ∧ x.age ≤ 79) → (90 ≤ x.systolic_bp ∧ x.systolic_bp ≤ 200) →
      ¬(60 ≤ x.diastolic_bp ∧ x.diastolic_bp ≤ 130) →
      calculate_ascvd_risk x = .error ⟨400, "Diastolic BP must be between 60 and 130 mmHg."⟩) ∧
    ((40 ≤ x.age ∧ x.age ≤ 79) → (90 ≤ x.systolic_bp ∧ x.systolic_bp ≤ 200) →
      (60 ≤ x.diastolic_bp ∧ x.diastolic_bp ≤ 130) →
      ¬(130 ≤ x.total_cholesterol ∧ x.total_cholesterol ≤ 320) →
      calculate_ascvd_risk x =
        .error ⟨400, "Total cholesterol must be between 130 and 320 mg/dL."⟩) ∧
    ((40 ≤ x.age ∧ x.age ≤ 79) → (90 ≤ x.systolic_bp ∧ x.systolic_bp ≤ 200) →
      (60 ≤ x.diastolic_bp ∧ x.diastolic_bp ≤ 130) →
      (130 ≤ x.total_cholesterol ∧ x.total_cholesterol ≤ 320) →
      ¬(20 ≤ x.hdl ∧ x.hdl ≤ 100) →
      calculate_ascvd_risk x =
        .error ⟨400, "HDL cholesterol must be between 20 and 100 mg/dL."⟩) ∧
    ((40 ≤ x.age ∧ x.age ≤ 79) → (90 ≤ x.systolic_bp ∧ x.systolic_bp ≤ 200) →
      (60 ≤ x.diastolic_bp ∧ x.diastolic_bp ≤ 130) →
      (130 ≤ x.total_cholesterol ∧ x.total_cholesterol ≤ 320) →
      (20 ≤ x.hdl ∧ x.hdl ≤ 100) → ¬(30 ≤ x.ldl ∧ x.ldl ≤ 300) →
      calculate_ascvd_risk x =
        .error ⟨400, "LDL cholesterol must be between 30 and 300 mg/dL."⟩) := by
  refine ⟨(calculate_ok_iff x).trans (validate_eq_none_iff x), ?_, ?_, ?_, ?_, ?_, ?_⟩ <;>
    · intros
      exact calculate_error_of_invalid (by unfold validate; split_ifs <;> simp_all)

/-- Witness for C4 at a concrete boundary-violating input. -/
theorem C4_witness :
    calculate_ascvd_risk ageLow = .error ⟨400, "Age must be between 40 and 79."⟩ :=
  (C4_validation_order ageLow).2.1 (by decide)

/-- C5 counterexample: two inputs whose offending ages differ (39 and 150)
produce the identical fixed error message, and that message does not contain
the digits of either offending value, so the validation error does not name
the actual value. -/
theorem C5_counterexample :
    ageLow.age = 39 ∧ ageHigh.age = 150 ∧
    calculate_ascvd_risk ageLow = .error ⟨400, "Age must be between 40 and 79."⟩ ∧
    calculate_ascvd_risk ageHigh = .error ⟨400, "Age must be between 40 and 79."⟩ ∧
    hasSubstrCL "Age must be between 40 and 79.".toList "39".toList = false ∧
    hasSubstrCL "Age must be between 40 and 79.".toList "150".toList = false :=
  ⟨rfl, rfl, calculate_error_of_invalid (by decide),
    calculate_error_of_invalid (by decide), by decide, by decide⟩

/-- C5 (amended): every validation error carries status 400 and one of six
fixed messages naming the offending field and its valid range, and the named
field is indeed out of range; the message does not include the actual
offending value. -/
theorem C5_error_names_field_range (x : ASCVDInput) (e : HTTPException)
    (h : calculate_ascvd_risk x = .error e) :
    e.status_code = 400 ∧
    ((e.detail = "Age must be between 40 and 79." ∧ ¬(40 ≤ x.age ∧ x.age ≤ 79)) ∨
     (e.detail = "Systolic BP must be between 90 and 200 mmHg." ∧
       ¬(90 ≤ x.systolic_bp ∧ x.systolic_bp ≤ 200)) ∨
     (e.detail = "Diastolic BP must be between 60 and 130 mmHg." ∧
       ¬(60 ≤ x.diastolic_bp ∧ x.diastolic_bp ≤ 130)) ∨
     (e.detail = "Total cholesterol must be between 130 and 320 mg/dL." ∧
       ¬(130 ≤ x.total_cholesterol ∧ x.total_cholesterol ≤ 320)) ∨
     (e.detail = "HDL cholesterol must be between 20 and 100 mg/dL." ∧
       ¬(20 ≤ x.hdl ∧ x.hdl ≤ 100)) ∨
     (e.detail = "LDL cholesterol must be between 30 and 300 mg/dL." ∧
       ¬(30 ≤ x.ldl ∧ x.ldl ≤ 300))) := by
  unfold calculate_ascvd_risk at h
  cases hv : validate x with
  | none => rw [hv] at h; exact absurd h (by simp)
  | some e2 =>
      rw [hv] at h
      have he : e2 = e := by simpa using h
      subst he
      unfold validate at hv
      split_ifs at hv with g1 g2 g3 g4 g5 g6 <;>
        first
          | (injection hv with hv2; subst hv2; simp_all)
          | injection hv

/-- Witness for C5's amended statement at a concrete invalid input. -/
theorem C5_witness :
    ((⟨400, "Age must be between 40 and 79."⟩ : HTTPException)).status_code = 400 :=
  (C5_error_names_field_range ageLow ⟨400, "Age must be between 40 and 79."⟩
    (calculate_error_of_invalid (by decide))).1

/-- C6: for every input with in-range systolic BP, exactly one of
`treatedLnSBP`/`untreatedLnSBP` is non-zero, the non-zero one equals
`ln(systolicBP)` (which is positive), and the selection matches the
hypertensive flag. -/
theorem C6_sbp_mutual_exclusion (x : ASCVDInput) (h : 90 ≤ x.systolic_bp) :
    (x.hypertensive = true →
      tr_ln_sbp x = Real.log x.systolic_bp ∧ nt_ln_sbp x = 0 ∧ 0 < tr_ln_sbp x) ∧
    (x.hypertensive = false →
      nt_ln_sbp x = Real.log x.systolic_bp ∧ tr_ln_sbp x = 0 ∧ 0 < nt_ln_sbp x) := by
  have hpos : (1:ℝ) < (x.systolic_bp:ℝ) := by
    exact_mod_cast (by omega : (1:ℤ) < x.systolic_bp)
  have hlog : 0 < Real.log x.systolic_bp := Real.log_pos hpos
  constructor <;> intro hh <;> simp [tr_ln_sbp, nt_ln_sbp, hh, hlog]

/-- Witness for C6 at a concrete hypertensive input. -/
theorem C6_witness :
    tr_ln_sbp bf40 = Real.log bf40.systolic_bp ∧ nt_ln_sbp bf40 = 0 ∧
      0 < tr_ln_sbp bf40 :=
  (C6_sbp_mutual_exclusion bf40 (by decide)).1 rfl

/-- C7: on every input that passes the six range checks, the transform and
output steps produce a result with no failure: the operation returns the
risk percentage, the baseline is a constant in the open interval (0, 1),
every logarithm argument is at least 20, and the exponentiation is positive
(hence defined). -/
theorem C7_total_after_validation (x : ASCVDInput)
    (h1 : 40 ≤ x.age) (h2 : x.age ≤ 79)
    (h3 : 90 ≤ x.systolic_bp) (h4 : x.systolic_bp ≤ 200)
    (h5 : 60 ≤ x.diastolic_bp) (h6 : x.diastolic_bp ≤ 130)
    (h7 : 130 ≤ x.total_cholesterol) (h8 : x.total_cholesterol ≤ 320)
    (h9 : 20 ≤ x.hdl) (h10 : x.hdl ≤ 100)
    (h11 : 30 ≤ x.ldl) (h12 : x.ldl ≤ 300) :
    calculate_ascvd_risk x = .ok (riskPercent x) ∧
    0 < s010 x ∧ s010 x < 1 ∧
    (20:ℝ) ≤ (x.age:ℝ) ∧ (20:ℝ) ≤ (x.total_cholesterol:ℝ) ∧
    (20:ℝ) ≤ (x.hdl:ℝ) ∧ (20:ℝ) ≤ (x.systolic_bp:ℝ) ∧
    0 < s010 x ^ Real.exp (predict x - mnxb x) := by
  refine ⟨calculate_ok_of_valid ((validate_eq_none_iff x).2
      ⟨⟨h1, h2⟩, ⟨h3, h4⟩, ⟨h5, h6⟩, ⟨h7, h8⟩, ⟨h9, h10⟩, ⟨h11, h12⟩⟩),
    s010_pos x, s010_lt_one x, ?_, ?_, ?_, ?_,
    Real.rpow_pos_of_pos (s010_pos x) _⟩ <;>
    exact_mod_cast (by omega : (20:ℤ) ≤ _)

/-- Witness for C7 at a concrete valid input. -/
theorem C7_witness :
    calculate_ascvd_risk sampleValid = .ok (riskPercent sampleValid) ∧
    0 < s010 sampleValid ∧ s010 sampleValid < 1 :=
  have h := C7_total_after_validation sampleValid (by decide) (by decide) (by decide)
    (by decide) (by decide) (by decide) (by decide) (by decide) (by decide)
    (by decide) (by decide) (by decide)
  ⟨h.1, h.2.1, h.2.2.1⟩

/-- C8 counterexample: at a concrete valid input (black female, age 40,
treated systolic BP 200, total cholesterol 320, HDL 20, smoker, diabetic)
the rounded percentage equals exactly 100, so the returned value is not
strictly below 100. -/
theorem C8_counterexample :
    validate c8max = none ∧ riskPercent c8max = 100 ∧
      ¬(riskPercent c8max < 100) := by
  refine ⟨by decide, c8max_riskPercent, ?_⟩
  rw [c8max_riskPercent]
  exact lt_irrefl 100

/-- C8 (amended): for every valid input the returned percentage lies in the
closed interval [0, 100]: it is non-negative and at most 100, with no
clamping in the computation; the unrounded risk is strictly below 1, but
rounding can reach 100.0 exactly. -/
theorem C8_percent_range (x : ASCVDInput)
    (h1 : 40 ≤ x.age) (h2 : x.age ≤ 79)
    (h3 : 90 ≤ x.systolic_bp) (h4 : x.systolic_bp ≤ 200)
    (h5 : 60 ≤ x.diastolic_bp) (h6 : x.diastolic_bp ≤ 130)
    (h7 : 130 ≤ x.total_cholesterol) (h8 : x.total_cholesterol ≤ 320)
    (h9 : 20 ≤ x.hdl) (h10 : x.hdl ≤ 100)
    (h11 : 30 ≤ x.ldl) (h12 : x.ldl ≤ 300) :
    calculate_ascvd_risk x = .ok (riskPercent x) ∧
    0 ≤ riskPercent x ∧ riskPercent x ≤ 100 ∧ risk x < 1 := by
  have h0 : 0 < s010 x := s010_pos x
  have hlt : s010 x ^ Real.exp (predict x - mnxb x) < 1 :=
    Real.rpow_lt_one h0.le (s010_lt_one x) (Real.exp_pos _)
  have hgt : 0 < s010 x ^ Real.exp (predict x - mnxb x) :=
    Real.rpow_pos_of_pos h0 _
  have hr0 : 0 < risk x := by unfold risk; linarith
  have hr1 : risk x < 1 := by unfold risk; linarith
  refine ⟨calculate_ok_of_valid ((validate_eq_none_iff x).2
      ⟨⟨h1, h2⟩, ⟨h3, h4⟩, ⟨h5, h6⟩, ⟨h7, h8⟩, ⟨h9, h10⟩, ⟨h11, h12⟩⟩), ?_, ?_, hr1⟩
  · have hlo := riskPercent_ge_of (x := x) (n := 0) (by push_cast; nlinarith)
    simpa using hlo
  · have hhi := riskPercent_le_of (x := x) (n := 1000) (by push_cast; nlinarith)
    norm_num at hhi
    exact hhi

/-- Witness for C8's amended statement at a concrete valid input. -/
theorem C8_witness :
    0 ≤ riskPercent sampleValid ∧ riskPercent sampleValid ≤ 100 :=
  have h := C8_percent_range sampleValid (by decide) (by decide) (by decide)
    (by decide) (by decide) (by decide) (by decide) (by decide) (by decide)
    (by decide) (by decide) (by decide)
  ⟨h.2.1, h.2.2.1⟩

/-- C9: two valid inputs that agree on every field except diastolic BP and
LDL (each within range) produce the same result: the two unused fields are
validated but have no influence on the returned percentage. -/
theorem C9_unused_fields (x y : ASCVDInput)
    (e1 : y.is_male = x.is_male) (e2 : y.is_black = x.is_black)
    (e3 : y.smoker = x.smoker) (e4 : y.hypertensive = x.hypertensive)
    (e5 : y.diabetic = x.diabetic) (e6 : y.age = x.age)
    (e7 : y.systolic_bp = x.systolic_bp)
    (e8 : y.total_cholesterol = x.total_cholesterol) (e9 : y.hdl = x.hdl)
    (h1 : 40 ≤ x.age) (h2 : x.age ≤ 79)
    (h3 : 90 ≤ x.systolic_bp) (h4 : x.systolic_bp ≤ 200)
    (h5 : 60 ≤ x.diastolic_bp) (h6 : x.diastolic_bp ≤ 130)
    (h7 : 130 ≤ x.total_cholesterol) (h8 : x.total_cholesterol ≤ 320)
    (h9 : 20 ≤ x.hdl) (h10 : x.hdl ≤ 100)
    (h11 : 30 ≤ x.ldl) (h12 : x.ldl ≤ 300)
    (h13 : 60 ≤ y.diastolic_bp) (h14 : y.diastolic_bp ≤ 130)
    (h15 : 30 ≤ y.ldl) (h16 : y.ldl ≤ 300) :
    calculate_ascvd_risk x = calculate_ascvd_risk y ∧
    calculate_ascvd_risk x = .ok (riskPercent x) := by
  have hvx : validate x = none := (validate_eq_none_iff x).2
    ⟨⟨h1, h2⟩, ⟨h3, h4⟩, ⟨h5, h6⟩, ⟨h7, h8⟩, ⟨h9, h10⟩, ⟨h11, h12⟩⟩
  have hvy : validate y = none := (validate_eq_none_iff y).2
    (by rw [e6, e7, e8, e9]
        exact ⟨⟨h1, h2⟩, ⟨h3, h4⟩, ⟨h13, h14⟩, ⟨h7, h8⟩, ⟨h9, h10⟩, ⟨h15, h16⟩⟩)
  refine ⟨?_, calculate_ok_of_valid hvx⟩
  rw [calculate_ok_of_valid hvx, calculate_ok_of_valid hvy,
    riskPercent_congr e1 e2 e3 e4 e5 e6 e7 e8 e9]

/-- Witness for C9 at two concrete inputs differing only in diastolic BP
and LDL. -/
theorem C9_witness :
    calculate_ascvd_risk sampleValid = calculate_ascvd_risk sampleValid2 :=
  (C9_unused_fields sampleValid sampleValid2 (by decide) (by decide) (by decide)
    (by decide) (by decide) (by decide) (by decide) (by decide) (by decide)
    (by decide) (by decide) (by decide) (by decide) (by decide) (by decide)
    (by decide) (by decide) (by decide) (by decide) (by decide) (by decide)
    (by decide) (by decide) (by decide) (by decide)).1

/-- C10 counterexample: in both female subgroups the returned percentage can
strictly decrease as age increases with all other fields fixed and valid:
the black-female pair drops from at least 50 to at most 35 between ages 40
and 79, and the non-black-female pair drops from at least 60 to at most 59. -/
theorem C10_counterexample :
    validate bf40 = none ∧ validate bf79 = none ∧
    bf40.age = 40 ∧ bf79.age = 79 ∧
    (bf40.is_male = bf79.is_male ∧ bf40.is_black = bf79.is_black ∧
      bf40.smoker = bf79.smoker ∧ bf40.hypertensive = bf79.hypertensive ∧
      bf40.diabetic = bf79.diabetic ∧ bf40.systolic_bp = bf79.systolic_bp ∧
      bf40.diastolic_bp = bf79.diastolic_bp ∧
      bf40.total_cholesterol = bf79.total_cholesterol ∧
      bf40.hdl = bf79.hdl ∧ bf40.ldl = bf79.ldl) ∧
    riskPercent bf79 < riskPercent bf40 ∧
    validate wf40 = none ∧ validate wf79 = none ∧
    wf40.age = 40 ∧ wf79.age = 79 ∧
    (wf40.is_male = wf79.is_male ∧ wf40.is_black = wf79.is_black ∧
      wf40.smoker = wf79.smoker ∧ wf40.hypertensive = wf79.hypertensive ∧
      wf40.diabetic = wf79.diabetic ∧ wf40.systolic_bp = wf79.systolic_bp ∧
      wf40.diastolic_bp = wf79.diastolic_bp ∧
      wf40.total_cholesterol = wf79.total_cholesterol ∧
      wf40.hdl = wf79.hdl ∧ wf40.ldl = wf79.ldl) ∧
    riskPercent wf79 < riskPercent wf40 := by
  refine ⟨by decide, by decide, rfl, rfl, by decide, ?_, by decide, by decide,
    rfl, rfl, by decide, ?_⟩
  · linarith [bf40_riskPercent_ge, bf79_riskPercent_le]
  · linarith [wf40_riskPercent_ge, wf79_riskPercent_le]

/-- C10 (amended): for the male subgroups (both values of isBlack), and any
pair of valid inputs agreeing on all fields except age, the older input's
returned risk percentage is not smaller; the female subgroups violate this. -/
theorem C10_male_age_monotone (x y : ASCVDInput) (hxm : x.is_male = true)
    (e1 : y.is_male = x.is_male) (e2 : y.is_black = x.is_black)
    (e3 : y.smoker = x.smoker) (e4 : y.hypertensive = x.hypertensive)
    (e5 : y.diabetic = x.diabetic) (e6 : y.systolic_bp = x.systolic_bp)
    (e7 : y.diastolic_bp = x.diastolic_bp)
    (e8 : y.total_cholesterol = x.total_cholesterol) (e9 : y.hdl = x.hdl)
    (e10 : y.ldl = x.ldl)
    (h1 : 40 ≤ x.age) (h2 : x.age ≤ 79) (hy2 : y.age ≤ 79)
    (h3 : 90 ≤ x.systolic_bp) (h4 : x.systolic_bp ≤ 200)
    (h5 : 60 ≤ x.diastolic_bp) (h6 : x.diastolic_bp ≤ 130)
    (h7 : 130 ≤ x.total_cholesterol) (h8 : x.total_cholesterol ≤ 320)
    (h9 : 20 ≤ x.hdl) (h10 : x.hdl ≤ 100)
    (h11 : 30 ≤ x.ldl) (h12 : x.ldl ≤ 300)
    (hage : x.age ≤ y.age) :
    riskPercent x ≤ riskPercent y ∧
    calculate_ascvd_risk x = .ok (riskPercent x) ∧
    calculate_ascvd_risk y = .ok (riskPercent y) := by
  have hym : y.is_male = true := e1.trans hxm
  have hp := predict_male_mono hxm hym e2 e3 e4 e5 e6 e8 e9 h1 hage h7 h8 h9
  have hmono := riskPercent_mono_predict (s010_congr e1 e2) (mnxb_congr e1 e2)
    (s010_pos x) (s010_lt_one x).le hp
  refine ⟨hmono, calculate_ok_of_valid ((validate_eq_none_iff x).2
      ⟨⟨h1, h2⟩, ⟨h3, h4⟩, ⟨h5, h6⟩, ⟨h7, h8⟩, ⟨h9, h10⟩, ⟨h11, h12⟩⟩),
    calculate_ok_of_valid ((validate_eq_none_iff y).2 ?_)⟩
  rw [e6, e7, e8, e9, e10]
  exact ⟨⟨le_trans h1 hage, hy2⟩, ⟨h3, h4⟩, ⟨h5, h6⟩, ⟨h7, h8⟩, ⟨h9, h10⟩, ⟨h11, h12⟩⟩

/-- Witness for C10's amended statement at a concrete black-male pair. -/
theorem C10_witness : riskPercent bm40 ≤ riskPercent bm79 :=
  (C10_male_age_monotone bm40 bm79 (by decide) (by decide) (by decide) (by decide)
    (by decide) (by decide) (by decide) (by decide) (by decide) (by decide)
    (by decide) (by decide) (by decide) (by decide) (by decide) (by decide)
    (by decide) (by decide) (by decide) (by decide) (by decide) (by decide)
    (by decide) (by decide) (by decide)).1
